import Mathlib

/-!
Shallow embedding of the uv-index repository's core logic:

* the severity classification and the city table of
  src/app/services/uvIndexService.ts,
* the Meteomatics provider adapter of the unnamed Meteomatics client module
  (cache check, current-value extraction with defensive guards, forecast
  normalization and daily-max reduce),
* the caching location resolver of the same module (timeout race, fallback
  coordinate, late-callback behaviour), and
* the plain geolocation wrapper of src/app/services/uvIndexService.ts.

Numbers are modelled as rationals; JSON response bodies as an inductive
value type; the asynchronous resolver as an explicit state machine whose
events are the geolocation callbacks and the bounding timeout.
-/

set_option autoImplicit false

/-- A parsed JSON value, as delivered by the HTTP transport. -/
inductive Json where
  | null : Json
  | bool (b : Bool) : Json
  | num (q : ℚ) : Json
  | str (s : String) : Json
  | arr (items : List Json) : Json
  | obj (fields : List (String × Json)) : Json
  deriving Repr

namespace Json

/-- Property lookup on a JSON value: only objects have own properties;
property access on any other (non-null) value yields undefined, which we
model as none. -/
def get : Json → String → Option Json
  | obj fields, k => fields.lookup k
  | _, _ => none

/-- Array index access; anything other than an array yields undefined. -/
def idx : Json → ℕ → Option Json
  | arr items, i => items.get? i
  | _, _ => none

end Json

/-- An optional JSON value, i.e. a JavaScript expression result that may be
undefined (none). -/
abbrev JsVal := Option Json

/-- Property access lifted to possibly-undefined values: accessing a
property of undefined yields undefined (the code only does so behind
truthiness guards, so this agrees with the source on every executed path). -/
def jsGet (v : JsVal) (k : String) : JsVal :=
  v.bind (fun j => j.get k)

/-- Index access lifted to possibly-undefined values. -/
def jsIdx (v : JsVal) (i : ℕ) : JsVal :=
  v.bind (fun j => j.idx i)

/-- JavaScript truthiness of a possibly-undefined JSON value: undefined,
null, false, 0 and the empty string are falsy; every other value is truthy. -/
def truthy : JsVal → Bool
  | none => false
  | some Json.null => false
  | some (Json.bool b) => b
  | some (Json.num q) => decide (q ≠ 0)
  | some (Json.str s) => decide (s ≠ "")
  | some (Json.arr _) => true
  | some (Json.obj _) => true

/-- The JavaScript greater-than comparison as used on forecast uv values:
two numbers compare numerically, two strings lexicographically; any
comparison involving undefined or mixed shapes is treated as false (the
NaN branch of the source's comparison). -/
def jsGt : JsVal → JsVal → Bool
  | some (Json.num a), some (Json.num b) => decide (b < a)
  | some (Json.str a), some (Json.str b) => decide (b < a)
  | _, _ => false

/-- A location value: interface LocationData of the source, with lat, lng
and an optional address. -/
structure LocationData where
  lat : ℚ
  lng : ℚ
  address : Option String := none
  deriving Repr, DecidableEq

/-- The severity record returned by getUVSeverity. -/
structure UVSeverity where
  level : String
  color : String
  deriving Repr, DecidableEq

namespace UvIndexService

/-- getUVSeverity of src/app/services/uvIndexService.ts (the identical
helper also appears in src/app/components/MeteomaticsUVDisplay.tsx). -/
def getUVSeverity (uvIndex : ℚ) : UVSeverity :=
  if uvIndex < 3 then { level := "Low", color := "bg-green-500" }
  else if uvIndex < 6 then { level := "Moderate", color := "bg-yellow-500" }
  else if uvIndex < 8 then { level := "High", color := "bg-orange-500" }
  else if uvIndex < 11 then { level := "Very High", color := "bg-red-500" }
  else { level := "Extreme", color := "bg-purple-600" }

/-- The fixed city table of getCityCoordinates. -/
def cities : List (String × LocationData) :=
  [("Gothenburg", { lat := 577089/10000, lng := 119746/10000, address := some "Gothenburg, Sweden" }),
   ("Stockholm", { lat := 593293/10000, lng := 180686/10000, address := some "Stockholm, Sweden" }),
   ("Malmö", { lat := 556050/10000, lng := 130038/10000, address := some "Malmö, Sweden" })]

/-- What the JavaScript index access cities[city] can produce: an own
property of the object literal (one of the three LocationData records),
an inherited Object.prototype member reached through the prototype chain
(a function, or the Object.prototype object for the proto accessor — in
every case a truthy non-coordinate value), or undefined. -/
inductive CityLookupResult where
  | ownEntry (v : LocationData) : CityLookupResult
  | inherited (name : String) : CityLookupResult
  | undef : CityLookupResult
  deriving Repr, DecidableEq

/-- The property names an object literal inherits from Object.prototype,
all of which index access finds (as truthy function/object values) when
the literal has no own property of that name. -/
def objectPrototypeKeys : List String :=
  ["constructor", "hasOwnProperty", "isPrototypeOf", "propertyIsEnumerable",
   "toLocaleString", "toString", "valueOf", "__proto__",
   "__defineGetter__", "__defineSetter__", "__lookupGetter__", "__lookupSetter__"]

/-- The index access cities[city]: own properties first, then the
prototype chain, then undefined. -/
def cityIndexAccess (city : String) : CityLookupResult :=
  match cities.lookup city with
  | some v => CityLookupResult.ownEntry v
  | none =>
      if city ∈ objectPrototypeKeys then CityLookupResult.inherited city
      else CityLookupResult.undef

/-- JavaScript truthiness of an index-access result: own entries are
objects and inherited members are functions or objects, all truthy; only
undefined is falsy. -/
def cityTruthy : CityLookupResult → Bool
  | CityLookupResult.undef => false
  | _ => true

/-- getCityCoordinates of src/app/services/uvIndexService.ts: the
expression cities[city] with a logical-or fallback to the Stockholm
entry, so the fallback is taken exactly when the index access is falsy. -/
def getCityCoordinates (city : String) : CityLookupResult :=
  if cityTruthy (cityIndexAccess city) then cityIndexAccess city
  else CityLookupResult.ownEntry
    { lat := 593293/10000, lng := 180686/10000, address := some "Stockholm, Sweden" }

end UvIndexService

/-- One mapped hourly-forecast entry, exactly as the adapters build it:
item.date and item.value are plain property accesses, so each field is a
possibly-undefined JSON value. -/
structure ForecastEntryJS where
  time : JsVal
  uvIndex : JsVal
  deriving Repr

/-- A well-typed hourly-forecast entry (a string timestamp and a numeric
uv value), the shape the providers actually deliver. -/
structure ForecastEntry where
  time : String
  uvIndex : ℚ
  deriving Repr, DecidableEq

/-- The injection of well-typed entries into the JavaScript-shaped ones. -/
def numEntry (e : ForecastEntry) : ForecastEntryJS :=
  { time := some (Json.str e.time), uvIndex := some (Json.num e.uvIndex) }

/-- Array.prototype.reduce without an initial value, specialised to the
adapters' callback shape: the accumulator starts at the first element and
the callback keeps prev only when gt prev current holds, otherwise takes
current. -/
def reduceMaxUv {α : Type} (gt : α → α → Bool) (h : α) (t : List α) : α :=
  t.foldl (fun prev current => if gt prev current then prev else current) h

/-- The adapters' reduce callback: prev.uvIndex > current.uvIndex. -/
def jsGtEntry (prev current : ForecastEntryJS) : Bool :=
  jsGt prev.uvIndex current.uvIndex

/-- The same callback on well-typed entries. -/
def qGtEntry (prev current : ForecastEntry) : Bool :=
  decide (prev.uvIndex > current.uvIndex)

namespace Meteomatics

/-- An HTTP response as seen by the adapter: a status code and a parsed
JSON body. -/
structure HttpResp where
  status : ℕ
  body : Json

/-- Response.ok of the fetch API: status in the inclusive range 200-299. -/
def HttpResp.ok (r : HttpResp) : Bool :=
  decide (200 ≤ r.status ∧ r.status < 300)

/-- The normalized adapter output, interface MeteomaticsUVData: current
value and timestamp (possibly-undefined JSON leaves, defaulted before
extraction), the optional daily maximum, the optional hourly series and
the constant source label. -/
structure MeteomaticsUVData where
  uvIndex : JsVal
  timestamp : JsVal
  maxUvIndex : JsVal
  maxUvTime : JsVal
  hourlyForecast : Option (List ForecastEntryJS)
  source : String
  deriving Repr

/-- The module-level cache cells of the Meteomatics client: uvDataCache
(data plus the Date.now() at which it was stored) and locationCache. -/
structure AdapterState where
  uvDataCache : Option (MeteomaticsUVData × ℕ)
  locationCache : Option LocationData

/-- CACHE_DURATION: five minutes in milliseconds. -/
def CACHE_DURATION : ℕ := 5 * 60 * 1000

/-- The cache check at the top of getMeteomaticsUVIndex: a hit needs a
stored item younger than CACHE_DURATION and a cached location whose lat
and lng are both exactly equal to the requested ones. -/
def cacheLookup (s : AdapterState) (location : LocationData) (now : ℕ) :
    Option MeteomaticsUVData :=
  match s.uvDataCache, s.locationCache with
  | some item, some lc =>
      if now - item.2 < CACHE_DURATION ∧ lc.lat = location.lat ∧ lc.lng = location.lng
      then some item.1 else none
  | _, _ => none

/-- dates.map of the forecast branch: a null item would make item.date
throw (none aborts the call); any other item contributes its date and
value properties, possibly undefined. -/
def mapDates (items : List Json) : Option (List ForecastEntryJS) :=
  items.mapM (fun item =>
    match item with
    | Json.null => none
    | _ => some { time := item.get "date", uvIndex := item.get "value" })

/-- The truthiness guard chain over the forecast body:
forecastData && .data && .data[0] && .coordinates && .coordinates[0] && .dates. -/
def forecastGuard (body : Json) : Bool :=
  let d0 : JsVal := some body
  let d1 := jsGet d0 "data"
  let d2 := jsIdx d1 0
  let d3 := jsGet d2 "coordinates"
  let d4 := jsIdx d3 0
  let d5 := jsGet d4 "dates"
  truthy d0 && truthy d1 && truthy d2 && truthy d3 && truthy d4 && truthy d5

/-- The forecast-processing block of getMeteomaticsUVIndex: on a non-ok
response or a failed guard chain everything stays undefined; on a guarded
array the entries are mapped and, when non-empty, reduced to the maximum
item; a truthy non-array dates value (or a null item) makes the block
throw, modelled as Except.error, which the enclosing catch turns into a
null result. Returns (hourlyForecast, maxUvIndex, maxUvTime). -/
def processForecast (resp : HttpResp) :
    Except Unit (Option (List ForecastEntryJS) × JsVal × JsVal) :=
  if resp.ok then
    let d5 := jsGet (jsIdx (jsGet (jsIdx (jsGet (some resp.body) "data") 0) "coordinates") 0) "dates"
    if forecastGuard resp.body then
      match d5 with
      | some (Json.arr items) =>
          match mapDates items with
          | none => Except.error ()
          | some entries =>
              match entries with
              | [] => Except.ok (some [], none, none)
              | h :: t =>
                  let maxUvItem := reduceMaxUv jsGtEntry h t
                  Except.ok (some entries, maxUvItem.uvIndex, maxUvItem.time)
      | _ => Except.error ()
    else Except.ok (none, none, none)
  else Except.ok (none, none, none)

/-- The truthiness guard chain over the current-value body, one step
deeper than the forecast one (it also checks dates[0]). -/
def currentGuard (body : Json) : Bool :=
  let c0 : JsVal := some body
  let c1 := jsGet c0 "data"
  let c2 := jsIdx c1 0
  let c3 := jsGet c2 "coordinates"
  let c4 := jsIdx c3 0
  let c5 := jsGet c4 "dates"
  let c6 := jsIdx c5 0
  truthy c0 && truthy c1 && truthy c2 && truthy c3 && truthy c4 && truthy c5 && truthy c6

/-- The current-value extraction of getMeteomaticsUVIndex: the defaults
are 0 and the request's formatted date, overwritten by dates[0].value and
dates[0].date when the guard chain passes. Returns (uvIndex, timestamp). -/
def extractCurrent (body : Json) (formattedDate : String) : JsVal × JsVal :=
  let c6 := jsIdx (jsGet (jsIdx (jsGet (jsIdx (jsGet (some body) "data") 0) "coordinates") 0) "dates") 0
  if currentGuard body then (jsGet c6 "value", jsGet c6 "date")
  else (some (Json.num 0), some (Json.str formattedDate))

/-- getMeteomaticsUVIndex of the Meteomatics client module. Inputs beyond
the location: the adapter state, Date.now() in milliseconds, the request's
formatted date string, whether credentials are configured, and the two
HTTP responses (current and forecast, both issued together when the
network path is taken). Output: the result (none on failure), the new
adapter state and the number of network requests issued. -/
def getMeteomaticsUVIndex (s : AdapterState) (location : LocationData)
    (now : ℕ) (formattedDate : String) (credsPresent : Bool)
    (currentResponse forecastResponse : HttpResp) :
    Option MeteomaticsUVData × AdapterState × ℕ :=
  match cacheLookup s location now with
  | some d => (some d, s, 0)
  | none =>
      if ¬ credsPresent then (none, s, 0)
      else if ¬ currentResponse.ok then (none, s, 2)
      else
        match processForecast forecastResponse with
        | Except.error () => (none, s, 2)
        | Except.ok (hourlyForecast, maxUvIndex, maxUvTime) =>
            let current := extractCurrent currentResponse.body formattedDate
            let result : MeteomaticsUVData :=
              { uvIndex := current.1
                timestamp := current.2
                maxUvIndex := maxUvIndex
                maxUvTime := maxUvTime
                hourlyForecast := hourlyForecast
                source := "Meteomatics Professional Weather Data" }
            (some result, { uvDataCache := some (result, now), locationCache := some location }, 2)

end Meteomatics

namespace Meteomatics

/-- DEFAULT_LOCATION of the Meteomatics client module: Stockholm, Sweden. -/
def DEFAULT_LOCATION : LocationData := { lat := 593293/10000, lng := 180686/10000 }

/-- The settlement state of the promise created by getUserLocation. A
promise settles at most once: resolving or rejecting a settled promise is
a no-op. -/
inductive PromiseState where
  | pending : PromiseState
  | resolved (v : LocationData) : PromiseState
  | rejected (msg : String) : PromiseState
  deriving Repr, DecidableEq

/-- resolve: settles the promise if it is still pending, otherwise no-op. -/
def resolveP (p : PromiseState) (v : LocationData) : PromiseState :=
  match p with
  | PromiseState.pending => PromiseState.resolved v
  | _ => p

/-- The resolver's mutable module state: the cachedLocation and
locationPromise cells, the settlement state of the created promise, whether
the bounding setTimeout is still armed, and how many times the underlying
geolocation capability has been invoked. -/
structure ResolverState where
  cachedLocation : Option LocationData
  locationPromise : Bool
  promise : PromiseState
  timeoutArmed : Bool
  geoCalls : ℕ
  deriving Repr, DecidableEq

/-- The module state before any call: both cells null. -/
def initState : ResolverState :=
  { cachedLocation := none, locationPromise := false,
    promise := PromiseState.pending, timeoutArmed := false, geoCalls := 0 }

/-- What a call to getUserLocation hands back: the cached coordinate via
Promise.resolve, the already in-flight promise, or a freshly created one. -/
inductive CallResult where
  | cachedValue (v : LocationData) : CallResult
  | sharedPromise : CallResult
  | newPromise : CallResult
  deriving Repr, DecidableEq

/-- The promise executor, run synchronously while getUserLocation creates
a fresh promise: with geolocation unsupported it caches and resolves the
fallback at once; otherwise it arms the 5-second bounding timeout and
invokes navigator.geolocation.getCurrentPosition. -/
def createPromise (supported : Bool) (s : ResolverState) : ResolverState :=
  if supported then
    { s with locationPromise := true, promise := PromiseState.pending,
             timeoutArmed := true, geoCalls := s.geoCalls + 1 }
  else
    { s with locationPromise := true,
             promise := PromiseState.resolved DEFAULT_LOCATION,
             cachedLocation := some DEFAULT_LOCATION, timeoutArmed := false }

/-- getUserLocation of the Meteomatics client module: return the cached
location if present, else the in-flight promise if present, else create a
fresh promise (running its executor synchronously). -/
def getUserLocation (supported : Bool) (s : ResolverState) :
    CallResult × ResolverState :=
  match s.cachedLocation with
  | some v => (CallResult.cachedValue v, s)
  | none =>
      if s.locationPromise then (CallResult.sharedPromise, s)
      else (CallResult.newPromise, createPromise supported s)

/-- The asynchronous events that can reach the resolver after a fresh
promise was created: the bounding timeout firing, a geolocation success
with a position, or a geolocation error callback. -/
inductive GeoEvent where
  | timeoutFires : GeoEvent
  | geoSuccess (lat lng : ℚ) : GeoEvent
  | geoError (code : ℕ) : GeoEvent
  deriving Repr, DecidableEq

/-- One event handler, straight from the source: the timeout handler (a
no-op once cleared) caches and resolves the fallback and nulls the
promise cell; the success handler clears the timeout, caches the reported
position, resolves with it and nulls the promise cell; the error handler
does the same with the fallback. Success and error handlers run in full
even when the promise has already settled, so only the resolve itself is
a no-op then. -/
def step (s : ResolverState) : GeoEvent → ResolverState
  | GeoEvent.timeoutFires =>
      if s.timeoutArmed then
        { s with timeoutArmed := false,
                 cachedLocation := some DEFAULT_LOCATION,
                 promise := resolveP s.promise DEFAULT_LOCATION,
                 locationPromise := false }
      else s
  | GeoEvent.geoSuccess lat lng =>
      { s with timeoutArmed := false,
               cachedLocation := some { lat := lat, lng := lng },
               promise := resolveP s.promise { lat := lat, lng := lng },
               locationPromise := false }
  | GeoEvent.geoError _ =>
      { s with timeoutArmed := false,
               cachedLocation := some DEFAULT_LOCATION,
               promise := resolveP s.promise DEFAULT_LOCATION,
               locationPromise := false }

end Meteomatics

namespace UvIndexService

/-- A geolocation error object: a numeric code and a message. -/
structure GeoError where
  code : ℕ
  message : String
  deriving Repr, DecidableEq

/-- The possible outcomes of the underlying geolocation capability for a
single getCurrentPosition call (or its absence). -/
inductive GeoOutcome where
  | success (lat lng : ℚ) : GeoOutcome
  | failure (e : GeoError) : GeoOutcome
  | unsupported : GeoOutcome
  deriving Repr, DecidableEq

/-- getUserLocation of src/app/services/uvIndexService.ts: resolves with
the reported position on success, rejects with the geolocation error on
failure, and rejects when the capability is absent. -/
def getUserLocation : GeoOutcome → Except GeoError LocationData
  | GeoOutcome.success lat lng => Except.ok { lat := lat, lng := lng }
  | GeoOutcome.failure e => Except.error e
  | GeoOutcome.unsupported =>
      Except.error { code := 0, message := "Geolocation is not supported by your browser" }

end UvIndexService

/-- Modelled from the spec: the daily maximum as the spec words it, namely
the FIRST entry of the series attaining the maximum value. Used only to
compare the specified tie-break against the code's reduce. -/
def specDailyMaxFirst (l : List ForecastEntry) : Option ForecastEntry :=
  l.find? (fun e => l.all (fun e2 => decide (e2.uvIndex ≤ e.uvIndex)))

theorem reduceMaxUv_step (gt : ForecastEntry → ForecastEntry → Bool)
    (h c : ForecastEntry) (t : List ForecastEntry) :
    reduceMaxUv gt h (c :: t) = reduceMaxUv gt (if gt h c then h else c) t := rfl

theorem reduceMaxUv_ub (h : ForecastEntry) (t : List ForecastEntry) :
    ∀ e ∈ h :: t, e.uvIndex ≤ (reduceMaxUv qGtEntry h t).uvIndex := by
  induction t generalizing h with
  | nil =>
      intro e he
      rw [List.mem_singleton] at he
      subst he
      exact le_refl _
  | cons c t' ih =>
      intro e he
      rw [reduceMaxUv_step]
      have hh : h.uvIndex ≤ (if qGtEntry h c then h else c).uvIndex := by
        by_cases hc : qGtEntry h c
        · simp [hc]
        · have : ¬ (c.uvIndex < h.uvIndex) := by
            simpa [qGtEntry, gt_iff_lt] using hc
          simp [hc, le_of_not_lt this]
      have hc2 : c.uvIndex ≤ (if qGtEntry h c then h else c).uvIndex := by
        by_cases hc : qGtEntry h c
        · have : c.uvIndex < h.uvIndex := by
            simpa [qGtEntry, gt_iff_lt] using hc
          simp [hc, le_of_lt this]
        · simp [hc]
      rcases List.mem_cons.mp he with rfl | he2
      · exact le_trans hh (ih _ _ (List.mem_cons_self _ _))
      rcases List.mem_cons.mp he2 with rfl | he3
      · exact le_trans hc2 (ih _ _ (List.mem_cons_self _ _))
      · exact ih _ e (List.mem_cons_of_mem _ he3)

theorem reduceMaxUv_last (h : ForecastEntry) (t : List ForecastEntry) :
    ∃ l1 l2, h :: t = l1 ++ (reduceMaxUv qGtEntry h t) :: l2 ∧
      ∀ e ∈ l2, e.uvIndex < (reduceMaxUv qGtEntry h t).uvIndex := by
  induction t generalizing h with
  | nil => exact ⟨[], [], rfl, by simp⟩
  | cons c t' ih =>
      rw [reduceMaxUv_step]
      obtain ⟨l1, l2, hdecomp, hlt⟩ := ih (if qGtEntry h c then h else c)
      by_cases hc : qGtEntry h c
      · rw [if_pos hc] at hdecomp hlt ⊢
        cases l1 with
        | nil =>
            simp only [List.nil_append] at hdecomp
            injection hdecomp with hr ht'
            refine ⟨[], c :: t', by simp [← hr], ?_⟩
            intro e he
            rcases List.mem_cons.mp he with rfl | he2
            · rw [← hr]
              simpa [qGtEntry, gt_iff_lt] using hc
            · exact hlt e (ht' ▸ he2)
        | cons x l1' =>
            simp only [List.cons_append] at hdecomp
            injection hdecomp with hx ht'
            refine ⟨h :: c :: l1', l2, ?_, hlt⟩
            simp only [List.cons_append]
            rw [← ht']
      · rw [if_neg hc] at hdecomp hlt ⊢
        cases l1 with
        | nil =>
            simp only [List.nil_append] at hdecomp
            injection hdecomp with hr ht'
            refine ⟨[h], t', by simp [← hr], ?_⟩
            intro e he
            exact hlt e (ht' ▸ he)
        | cons x l1' =>
            simp only [List.cons_append] at hdecomp
            injection hdecomp with hx ht'
            refine ⟨h :: c :: l1', l2, ?_, hlt⟩
            simp only [List.cons_append]
            rw [← ht']

theorem jsGtEntry_numEntry (h c : ForecastEntry) :
    jsGtEntry (numEntry h) (numEntry c) = qGtEntry h c := rfl

theorem reduceMaxUv_map (h : ForecastEntry) (t : List ForecastEntry) :
    reduceMaxUv jsGtEntry (numEntry h) (t.map numEntry) = numEntry (reduceMaxUv qGtEntry h t) := by
  induction t generalizing h with
  | nil => rfl
  | cons c t' ih =>
      show reduceMaxUv jsGtEntry
        (if jsGtEntry (numEntry h) (numEntry c) then numEntry h else numEntry c)
        (t'.map numEntry) = _
      rw [jsGtEntry_numEntry, reduceMaxUv_step]
      by_cases hc : qGtEntry h c
      · rw [if_pos hc, if_pos hc, ih]
      · rw [if_neg hc, if_neg hc, ih]

/-- C1: the computed daily maximum over a non-empty forecast series has
the maximum uvIndex value of the series, is an entry of the series, and is
the LAST entry attaining that maximum (every entry after it is strictly
smaller); the adapters' reduce over the mapped JSON-shaped entries agrees
with this computation. (Amended from the claim: the tie-break selects the
last maximal entry, not the first.) -/
theorem dailyMax_tiebreak_amended (h : ForecastEntry) (t : List ForecastEntry) :
    (∀ e ∈ h :: t, e.uvIndex ≤ (reduceMaxUv qGtEntry h t).uvIndex) ∧
    (∃ l1 l2, h :: t = l1 ++ (reduceMaxUv qGtEntry h t) :: l2 ∧
      ∀ e ∈ l2, e.uvIndex < (reduceMaxUv qGtEntry h t).uvIndex) ∧
    reduceMaxUv jsGtEntry (numEntry h) (t.map numEntry) = numEntry (reduceMaxUv qGtEntry h t) :=
  ⟨reduceMaxUv_ub h t, reduceMaxUv_last h t, reduceMaxUv_map h t⟩

/-- C1 witness: on the series 08:00 with value 5 followed by 09:00 with
value 3, every entry is bounded by the computed maximum. -/
theorem dailyMax_tiebreak_amended_witness :
    ({ time := "08:00", uvIndex := 5 } : ForecastEntry).uvIndex ≤
      (reduceMaxUv qGtEntry { time := "08:00", uvIndex := 5 } [{ time := "09:00", uvIndex := 3 }]).uvIndex :=
  (dailyMax_tiebreak_amended { time := "08:00", uvIndex := 5 } [{ time := "09:00", uvIndex := 3 }]).1
    _ (List.mem_cons_self _ _)

/-- C1 counterexample: a forecast body with two entries both at value 5.
The adapter's processForecast selects the 09:00 entry (the last maximal
one) as maxUvTime, while the first entry attaining the maximum is the
08:00 entry, so the claimed first-occurrence tie-break is false. -/
theorem dailyMax_tiebreak_counterexample :
    Meteomatics.processForecast
      { status := 200,
        body := Json.obj [("data", Json.arr [Json.obj [("coordinates", Json.arr
          [Json.obj [("dates", Json.arr
            [Json.obj [("date", Json.str "08:00"), ("value", Json.num 5)],
             Json.obj [("date", Json.str "09:00"), ("value", Json.num 5)]])]])]])] }
      = Except.ok (some
          [{ time := some (Json.str "08:00"), uvIndex := some (Json.num 5) },
           { time := some (Json.str "09:00"), uvIndex := some (Json.num 5) }],
          some (Json.num 5), some (Json.str "09:00")) ∧
    specDailyMaxFirst
        [{ time := "08:00", uvIndex := 5 }, { time := "09:00", uvIndex := 5 }]
      = some { time := "08:00", uvIndex := 5 } ∧
    ("09:00" : String) ≠ "08:00" :=
  ⟨rfl, rfl, by decide⟩

/-- C2: the severity classification returns Low below 3, Moderate on
[3, 6), High on [6, 8), Very High on [8, 11) and Extreme from 11 upward. -/
theorem getUVSeverity_thresholds (x : ℚ) :
    (x < 3 → (UvIndexService.getUVSeverity x).level = "Low") ∧
    (3 ≤ x → x < 6 → (UvIndexService.getUVSeverity x).level = "Moderate") ∧
    (6 ≤ x → x < 8 → (UvIndexService.getUVSeverity x).level = "High") ∧
    (8 ≤ x → x < 11 → (UvIndexService.getUVSeverity x).level = "Very High") ∧
    (11 ≤ x → (UvIndexService.getUVSeverity x).level = "Extreme") := by
  unfold UvIndexService.getUVSeverity
  refine ⟨?_, ?_, ?_, ?_, ?_⟩ <;> intros <;> split_ifs <;> first | rfl | linarith

/-- C2 witness: the boundary examples of the claim, 2.9 and 2.999 give
Low, 3 gives Moderate, 7.999 gives High, 8 gives Very High and 11 gives
Extreme. -/
theorem getUVSeverity_thresholds_witness :
    (UvIndexService.getUVSeverity (29/10)).level = "Low" ∧
    (UvIndexService.getUVSeverity (2999/1000)).level = "Low" ∧
    (UvIndexService.getUVSeverity 3).level = "Moderate" ∧
    (UvIndexService.getUVSeverity (7999/1000)).level = "High" ∧
    (UvIndexService.getUVSeverity 8).level = "Very High" ∧
    (UvIndexService.getUVSeverity 11).level = "Extreme" :=
  ⟨(getUVSeverity_thresholds _).1 (by norm_num),
   (getUVSeverity_thresholds _).1 (by norm_num),
   (getUVSeverity_thresholds _).2.1 (by norm_num) (by norm_num),
   (getUVSeverity_thresholds _).2.2.1 (by norm_num) (by norm_num),
   (getUVSeverity_thresholds _).2.2.2.1 (by norm_num) (by norm_num),
   (getUVSeverity_thresholds _).2.2.2.2 (by norm_num)⟩

theorem cityIndexAccess_own (city : String) (v : LocationData)
    (h : UvIndexService.cities.lookup city = some v) :
    UvIndexService.cityIndexAccess city = UvIndexService.CityLookupResult.ownEntry v := by
  unfold UvIndexService.cityIndexAccess
  rw [h]

theorem cityIndexAccess_undef (city : String)
    (hnone : UvIndexService.cities.lookup city = none)
    (hnp : city ∉ UvIndexService.objectPrototypeKeys) :
    UvIndexService.cityIndexAccess city = UvIndexService.CityLookupResult.undef := by
  unfold UvIndexService.cityIndexAccess
  rw [hnone]
  show (if city ∈ UvIndexService.objectPrototypeKeys
        then UvIndexService.CityLookupResult.inherited city
        else UvIndexService.CityLookupResult.undef) = UvIndexService.CityLookupResult.undef
  rw [if_neg hnp]

theorem cityIndexAccess_inherited (city : String)
    (hnone : UvIndexService.cities.lookup city = none)
    (hp : city ∈ UvIndexService.objectPrototypeKeys) :
    UvIndexService.cityIndexAccess city = UvIndexService.CityLookupResult.inherited city := by
  unfold UvIndexService.cityIndexAccess
  rw [hnone]
  show (if city ∈ UvIndexService.objectPrototypeKeys
        then UvIndexService.CityLookupResult.inherited city
        else UvIndexService.CityLookupResult.undef) =
    UvIndexService.CityLookupResult.inherited city
  rw [if_pos hp]

/-- C10 counterexample: the name toString is not an own key of the table,
so on the claim getCityCoordinates should return the Stockholm default;
but the index access finds the inherited truthy Object.prototype member,
skips the logical-or fallback and returns that member — neither a table
entry nor the Stockholm coordinate. -/
theorem getCityCoordinates_prototype_counterexample :
    UvIndexService.cities.lookup "toString" = none ∧
    UvIndexService.getCityCoordinates "toString" =
      UvIndexService.CityLookupResult.inherited "toString" ∧
    UvIndexService.getCityCoordinates "toString" ≠
      UvIndexService.CityLookupResult.ownEntry
        { lat := 593293/10000, lng := 180686/10000, address := some "Stockholm, Sweden" } :=
  ⟨rfl, rfl, by
    intro h
    have h2 : UvIndexService.CityLookupResult.inherited "toString" =
        UvIndexService.CityLookupResult.ownEntry
          { lat := 593293/10000, lng := 180686/10000, address := some "Stockholm, Sweden" } := h
    exact UvIndexService.CityLookupResult.noConfusion h2⟩

/-- C10 amended: getCityCoordinates returns the matching table entry for
the three known names; for any other name that is NOT an inherited
Object.prototype property name — including the empty string — it returns
the Stockholm entry, whose latitude and longitude equal the geolocation
fallback coordinate DEFAULT_LOCATION; but for a name of an inherited
Object.prototype member the index access returns that truthy member
instead of a coordinate, so the function is not total onto the table. -/
theorem getCityCoordinates_total_default_amended (city : String) :
    (∀ v, UvIndexService.cities.lookup city = some v →
      UvIndexService.getCityCoordinates city = UvIndexService.CityLookupResult.ownEntry v ∧
      v ∈ UvIndexService.cities.map Prod.snd) ∧
    (UvIndexService.cities.lookup city = none → city ∉ UvIndexService.objectPrototypeKeys →
      UvIndexService.getCityCoordinates city =
        UvIndexService.CityLookupResult.ownEntry
          { lat := 593293/10000, lng := 180686/10000, address := some "Stockholm, Sweden" }) ∧
    (UvIndexService.cities.lookup city = none → city ∈ UvIndexService.objectPrototypeKeys →
      UvIndexService.getCityCoordinates city =
        UvIndexService.CityLookupResult.inherited city) ∧
    UvIndexService.cities.lookup "" = none ∧
    "" ∉ UvIndexService.objectPrototypeKeys ∧
    ({ lat := 593293/10000, lng := 180686/10000, address := some "Stockholm, Sweden" }
        : LocationData).lat = Meteomatics.DEFAULT_LOCATION.lat ∧
    ({ lat := 593293/10000, lng := 180686/10000, address := some "Stockholm, Sweden" }
        : LocationData).lng = Meteomatics.DEFAULT_LOCATION.lng := by
  refine ⟨?_, ?_, ?_, by decide, by decide, rfl, rfl⟩
  · intro v hv
    have hacc := cityIndexAccess_own city v hv
    constructor
    · unfold UvIndexService.getCityCoordinates
      rw [hacc]
      rfl
    · by_cases h1 : city = "Gothenburg"
      · subst h1
        simp [UvIndexService.cities, List.lookup] at hv
        subst hv
        simp [UvIndexService.cities]
      · by_cases h2 : city = "Stockholm"
        · subst h2
          simp [UvIndexService.cities, List.lookup] at hv
          subst hv
          simp [UvIndexService.cities]
        · by_cases h3 : city = "Malmö"
          · subst h3
            simp [UvIndexService.cities, List.lookup] at hv
            subst hv
            simp [UvIndexService.cities]
          · have b1 : (city == "Gothenburg") = false := beq_eq_false_iff_ne.mpr h1
            have b2 : (city == "Stockholm") = false := beq_eq_false_iff_ne.mpr h2
            have b3 : (city == "Malmö") = false := beq_eq_false_iff_ne.mpr h3
            simp [UvIndexService.cities, List.lookup, b1, b2, b3] at hv
  · intro hnone hnp
    have hacc := cityIndexAccess_undef city hnone hnp
    unfold UvIndexService.getCityCoordinates
    rw [hacc]
    rfl
  · intro hnone hp
    have hacc := cityIndexAccess_inherited city hnone hp
    unfold UvIndexService.getCityCoordinates
    rw [hacc]
    rfl

/-- C10 amended witness: the non-table, non-prototype name Uppsala gets
the Stockholm entry. -/
theorem getCityCoordinates_total_default_amended_witness :
    UvIndexService.getCityCoordinates "Uppsala" =
      UvIndexService.CityLookupResult.ownEntry
        { lat := 593293/10000, lng := 180686/10000, address := some "Stockholm, Sweden" } :=
  (getCityCoordinates_total_default_amended "Uppsala").2.1 (by decide) (by decide)

open Meteomatics

theorem processForecast_degraded (fc : HttpResp)
    (h : fc.ok = false ∨ forecastGuard fc.body = false) :
    processForecast fc = Except.ok (none, none, none) := by
  unfold processForecast
  rcases h with h | h
  · simp [h]
  · by_cases hok : fc.ok
    · simp [hok, h]
    · simp [hok]

/-- C6: when the cache misses and the primary (current-value) response has
a non-success status, the whole call fails with the null sentinel and the
adapter state (both cache cells) is left unchanged. -/
theorem fetch_primary_status_failure
    (s : AdapterState) (loc : LocationData) (now : ℕ) (fd : String)
    (cur fc : HttpResp)
    (hmiss : cacheLookup s loc now = none)
    (hbad : cur.ok = false) :
    (getMeteomaticsUVIndex s loc now fd true cur fc).1 = none ∧
    (getMeteomaticsUVIndex s loc now fd true cur fc).2.1 = s := by
  unfold getMeteomaticsUVIndex
  rw [hmiss]
  simp [hbad]

/-- C6 witness: a primary response with status 500 yields the null result
and an unchanged (empty) cache. -/
theorem fetch_primary_status_failure_witness :
    (getMeteomaticsUVIndex { uvDataCache := none, locationCache := none }
        { lat := 1, lng := 2 } 0 "2025-01-01T00:00:00Z" true
        { status := 500, body := Json.obj [] } { status := 200, body := Json.obj [] }).1 = none ∧
    (getMeteomaticsUVIndex { uvDataCache := none, locationCache := none }
        { lat := 1, lng := 2 } 0 "2025-01-01T00:00:00Z" true
        { status := 500, body := Json.obj [] } { status := 200, body := Json.obj [] }).2.1 =
      { uvDataCache := none, locationCache := none } :=
  fetch_primary_status_failure _ _ _ _ _ _ rfl rfl

/-- C7: when the cache misses, the primary response is ok and the
secondary (forecast) response has a non-success status or fails the
nested-path guard, the call still succeeds: the current value and
timestamp are extracted from the primary body while hourlyForecast,
maxUvIndex and maxUvTime are all omitted. -/
theorem fetch_forecast_degrades
    (s : AdapterState) (loc : LocationData) (now : ℕ) (fd : String)
    (cur fc : HttpResp)
    (hmiss : cacheLookup s loc now = none)
    (hok : cur.ok = true)
    (hfc : fc.ok = false ∨ forecastGuard fc.body = false) :
    (getMeteomaticsUVIndex s loc now fd true cur fc).1 =
      some { uvIndex := (extractCurrent cur.body fd).1,
             timestamp := (extractCurrent cur.body fd).2,
             maxUvIndex := none, maxUvTime := none, hourlyForecast := none,
             source := "Meteomatics Professional Weather Data" } := by
  unfold getMeteomaticsUVIndex
  rw [hmiss]
  simp [hok, processForecast_degraded fc hfc]

/-- C7 witness: primary status 200 with an empty-object body and forecast
status 500 produce a degraded but successful snapshot. -/
theorem fetch_forecast_degrades_witness :
    (getMeteomaticsUVIndex { uvDataCache := none, locationCache := none }
        { lat := 1, lng := 2 } 0 "2025-01-01T00:00:00Z" true
        { status := 200, body := Json.obj [] } { status := 500, body := Json.obj [] }).1 =
      some { uvIndex := some (Json.num 0),
             timestamp := some (Json.str "2025-01-01T00:00:00Z"),
             maxUvIndex := none, maxUvTime := none, hourlyForecast := none,
             source := "Meteomatics Professional Weather Data" } :=
  fetch_forecast_degrades _ _ _ _ _ _ rfl rfl (Or.inl rfl)

/-- C8 counterexample: a primary response with status 200 whose body is an
empty object (the nested current-value path is absent) does NOT fail the
call: it succeeds with a fabricated current value of 0 and the request's
formatted date, refuting the claimed malformed-response failure. -/
theorem fetch_malformed_primary_counterexample :
    currentGuard (Json.obj []) = false ∧
    (getMeteomaticsUVIndex { uvDataCache := none, locationCache := none }
        { lat := 1, lng := 2 } 0 "2025-01-01T00:00:00Z" true
        { status := 200, body := Json.obj [] } { status := 500, body := Json.obj [] }).1 =
      some { uvIndex := some (Json.num 0),
             timestamp := some (Json.str "2025-01-01T00:00:00Z"),
             maxUvIndex := none, maxUvTime := none, hourlyForecast := none,
             source := "Meteomatics Professional Weather Data" } ∧
    (some { uvIndex := some (Json.num 0),
            timestamp := some (Json.str "2025-01-01T00:00:00Z"),
            maxUvIndex := none, maxUvTime := none, hourlyForecast := none,
            source := "Meteomatics Professional Weather Data" }
       : Option MeteomaticsUVData) ≠ none :=
  ⟨rfl, rfl, fun h => Option.noConfusion h⟩

/-- C8 amended: when the cache misses, the primary response is ok but its
body lacks the expected current-value path, and the forecast processing
does not throw, the call still succeeds, substituting 0 for the current
value and the request's formatted date for the timestamp (it does not
fail with a malformed-response error). -/
theorem fetch_malformed_primary_amended
    (s : AdapterState) (loc : LocationData) (now : ℕ) (fd : String)
    (cur fc : HttpResp) (hf : Option (List ForecastEntryJS)) (mi mt : JsVal)
    (hmiss : cacheLookup s loc now = none)
    (hok : cur.ok = true)
    (hguard : currentGuard cur.body = false)
    (hfc : processForecast fc = Except.ok (hf, mi, mt)) :
    (getMeteomaticsUVIndex s loc now fd true cur fc).1 =
      some { uvIndex := some (Json.num 0), timestamp := some (Json.str fd),
             maxUvIndex := mi, maxUvTime := mt, hourlyForecast := hf,
             source := "Meteomatics Professional Weather Data" } := by
  unfold getMeteomaticsUVIndex
  rw [hmiss]
  simp [hok, hfc, extractCurrent, hguard]

/-- C8 amended witness: the counterexample scenario through the amended
statement. -/
theorem fetch_malformed_primary_amended_witness :
    (getMeteomaticsUVIndex { uvDataCache := none, locationCache := none }
        { lat := 1, lng := 2 } 0 "2025-01-01T00:00:00Z" true
        { status := 200, body := Json.obj [] } { status := 404, body := Json.null }).1 =
      some { uvIndex := some (Json.num 0),
             timestamp := some (Json.str "2025-01-01T00:00:00Z"),
             maxUvIndex := none, maxUvTime := none, hourlyForecast := none,
             source := "Meteomatics Professional Weather Data" } :=
  fetch_malformed_primary_amended _ _ _ _ _ _ _ _ _ rfl rfl rfl rfl

theorem fetch_success_populates
    (s : AdapterState) (loc : LocationData) (now : ℕ) (fd : String)
    (cur fc : HttpResp) (r : MeteomaticsUVData) (s' : AdapterState) (k : ℕ)
    (hmiss : cacheLookup s loc now = none)
    (hcall : getMeteomaticsUVIndex s loc now fd true cur fc = (some r, s', k)) :
    s' = { uvDataCache := some (r, now), locationCache := some loc } := by
  unfold getMeteomaticsUVIndex at hcall
  rw [hmiss] at hcall
  by_cases hok : cur.ok
  · cases hp : processForecast fc with
    | error e =>
        rw [hp] at hcall
        simp [hok] at hcall
    | ok triple =>
        obtain ⟨hf, mi, mt⟩ := triple
        rw [hp] at hcall
        simp only [hok, not_true_eq_false, if_false, Bool.not_eq_true, ite_false, ite_true,
          Prod.mk.injEq, Option.some.injEq] at hcall
        obtain ⟨hr, hs, hk⟩ := hcall
        subst hr
        exact hs.symm
  · simp [hok] at hcall

/-- C9: after a successful fetch that went to the network, a second call
with a coordinate whose latitude and longitude equal the cached key,
within the 5-minute validity window, returns the first call's result with
no network request (regardless of the second call's credentials or
responses); and any call whose coordinate differs from the cached key in
latitude or longitude, or that happens at or past the window, bypasses
the cached entry. -/
theorem fetch_cache_hit
    (s : AdapterState) (loc : LocationData) (now : ℕ) (fd : String)
    (cur fc : HttpResp) (r : MeteomaticsUVData) (s' : AdapterState) (k : ℕ)
    (loc2 : LocationData) (now2 : ℕ) (fd2 : String) (creds2 : Bool) (cur2 fc2 : HttpResp)
    (hmiss : cacheLookup s loc now = none)
    (hcall : getMeteomaticsUVIndex s loc now fd true cur fc = (some r, s', k))
    (hlat : loc2.lat = loc.lat) (hlng : loc2.lng = loc.lng)
    (hwin : now2 - now < CACHE_DURATION) :
    getMeteomaticsUVIndex s' loc2 now2 fd2 creds2 cur2 fc2 = (some r, s', 0) ∧
    (∀ (s3 : AdapterState) (d : MeteomaticsUVData) (ts : ℕ) (lc loc3 : LocationData) (now3 : ℕ),
      s3.uvDataCache = some (d, ts) → s3.locationCache = some lc →
      (lc.lat ≠ loc3.lat ∨ lc.lng ≠ loc3.lng ∨ ¬ (now3 - ts < CACHE_DURATION)) →
      cacheLookup s3 loc3 now3 = none) := by
  constructor
  · have hs' := fetch_success_populates s loc now fd cur fc r s' k hmiss hcall
    subst hs'
    have hhit : cacheLookup
        { uvDataCache := some (r, now), locationCache := some loc } loc2 now2 = some r := by
      show (if now2 - now < CACHE_DURATION ∧ loc.lat = loc2.lat ∧ loc.lng = loc2.lng
            then some r else none) = some r
      rw [if_pos ⟨hwin, hlat.symm, hlng.symm⟩]
    unfold getMeteomaticsUVIndex
    rw [hhit]
  · intro s3 d ts lc loc3 now3 h1 h2 h3
    unfold cacheLookup
    rw [h1, h2]
    have hno : ¬ (now3 - ts < CACHE_DURATION ∧ lc.lat = loc3.lat ∧ lc.lng = loc3.lng) := by
      tauto
    show (if now3 - ts < CACHE_DURATION ∧ lc.lat = loc3.lat ∧ lc.lng = loc3.lng
          then some d else none) = none
    rw [if_neg hno]

/-- C9 witness: a concrete successful first fetch populates the cache,
and a second call 1 second later at the same coordinate returns the same
snapshot with zero network requests, even with credentials absent and
failing responses supplied. -/
theorem fetch_cache_hit_witness :
    getMeteomaticsUVIndex
      { uvDataCache := some
          ({ uvIndex := some (Json.num 0),
             timestamp := some (Json.str "2025-01-01T00:00:00Z"),
             maxUvIndex := none, maxUvTime := none, hourlyForecast := none,
             source := "Meteomatics Professional Weather Data" }, 0),
        locationCache := some { lat := 1, lng := 2 } }
      { lat := 1, lng := 2 } 1000 "2025-01-01T00:16:40Z" false
      { status := 500, body := Json.null } { status := 500, body := Json.null } =
    (some { uvIndex := some (Json.num 0),
            timestamp := some (Json.str "2025-01-01T00:00:00Z"),
            maxUvIndex := none, maxUvTime := none, hourlyForecast := none,
            source := "Meteomatics Professional Weather Data" },
     { uvDataCache := some
         ({ uvIndex := some (Json.num 0),
            timestamp := some (Json.str "2025-01-01T00:00:00Z"),
            maxUvIndex := none, maxUvTime := none, hourlyForecast := none,
            source := "Meteomatics Professional Weather Data" }, 0),
       locationCache := some { lat := 1, lng := 2 } }, 0) :=
  (fetch_cache_hit { uvDataCache := none, locationCache := none } { lat := 1, lng := 2 } 0
    "2025-01-01T00:00:00Z"
    { status := 200, body := Json.obj [] } { status := 500, body := Json.obj [] }
    _ _ 2 { lat := 1, lng := 2 } 1000 "2025-01-01T00:16:40Z" false
    { status := 500, body := Json.null } { status := 500, body := Json.null }
    rfl rfl rfl rfl (by decide)).1

theorem step_preserves_resolved (s : ResolverState) (e : GeoEvent) (v : LocationData)
    (h : s.promise = PromiseState.resolved v) :
    (step s e).promise = PromiseState.resolved v := by
  cases e with
  | timeoutFires =>
      by_cases ha : s.timeoutArmed
      · simp [step, ha, h, resolveP]
      · simp [step, ha, h]
  | geoSuccess lat lng => simp [step, h, resolveP]
  | geoError code => simp [step, h, resolveP]

theorem foldl_preserves_resolved (es : List GeoEvent) (s : ResolverState) (v : LocationData)
    (h : s.promise = PromiseState.resolved v) :
    (es.foldl step s).promise = PromiseState.resolved v := by
  induction es generalizing s with
  | nil => exact h
  | cons e es' ih => exact ih _ (step_preserves_resolved s e v h)

theorem resolveP_no_reject (p : PromiseState) (v : LocationData) (msg : String)
    (h : resolveP p v = PromiseState.rejected msg) : p = PromiseState.rejected msg := by
  cases p with
  | pending => simp [resolveP] at h
  | resolved w => exact h
  | rejected m => exact h

theorem step_no_reject (s : ResolverState) (e : GeoEvent) (msg : String)
    (h : (step s e).promise = PromiseState.rejected msg) :
    s.promise = PromiseState.rejected msg := by
  cases e with
  | timeoutFires =>
      by_cases ha : s.timeoutArmed
      · exact resolveP_no_reject _ _ _ (by simpa [step, ha] using h)
      · simp [step, ha] at h
        exact h
  | geoSuccess lat lng => exact resolveP_no_reject _ _ _ (by simpa [step] using h)
  | geoError code => exact resolveP_no_reject _ _ _ (by simpa [step] using h)

theorem foldl_no_reject (es : List GeoEvent) (s : ResolverState) (msg : String)
    (h : (es.foldl step s).promise = PromiseState.rejected msg) :
    s.promise = PromiseState.rejected msg := by
  induction es generalizing s with
  | nil => exact h
  | cons e es' ih => exact step_no_reject s e msg (ih _ h)

/-- C4 counterexample: the plain getUserLocation of
src/app/services/uvIndexService.ts, cited by the claim, surfaces
geolocation failures as rejections: a permission-denied error rejects the
promise with that error, and an absent capability rejects with an Error,
so this getUserLocation does not resolve to a coordinate on every
outcome. -/
theorem getUserLocation_rejects_counterexample :
    UvIndexService.getUserLocation
        (UvIndexService.GeoOutcome.failure { code := 1, message := "User denied Geolocation" })
      = Except.error { code := 1, message := "User denied Geolocation" } ∧
    UvIndexService.getUserLocation UvIndexService.GeoOutcome.unsupported
      = Except.error { code := 0, message := "Geolocation is not supported by your browser" } :=
  ⟨rfl, rfl⟩

/-- C4 amended: the caching location resolver of the Meteomatics client
module never rejects. With the capability absent, the created promise is
resolved with the fallback at once; after a fresh supported call, a
success callback resolves it with the reported position and an error
callback or the bounding timeout resolve it with the fallback; and under
every event schedule following either kind of call the promise is never
in a rejected state. (The plain getUserLocation of uvIndexService.ts,
also cited by the claim, instead rejects on failure and on capability
absence.) -/
theorem locationResolver_never_rejects_amended :
    ((getUserLocation false initState).2.promise = PromiseState.resolved DEFAULT_LOCATION) ∧
    (∀ lat lng : ℚ, (step (getUserLocation true initState).2 (GeoEvent.geoSuccess lat lng)).promise
        = PromiseState.resolved { lat := lat, lng := lng }) ∧
    (∀ code : ℕ, (step (getUserLocation true initState).2 (GeoEvent.geoError code)).promise
        = PromiseState.resolved DEFAULT_LOCATION) ∧
    ((step (getUserLocation true initState).2 GeoEvent.timeoutFires).promise
        = PromiseState.resolved DEFAULT_LOCATION) ∧
    (∀ (supported : Bool) (es : List GeoEvent) (msg : String),
      (es.foldl step (getUserLocation supported initState).2).promise
        ≠ PromiseState.rejected msg) := by
  refine ⟨rfl, fun lat lng => rfl, fun code => rfl, rfl, ?_⟩
  intro supported es msg h
  have h0 := foldl_no_reject es _ msg h
  cases supported with
  | true => exact PromiseState.noConfusion h0
  | false => exact PromiseState.noConfusion h0

/-- C4 amended witness: after a supported call followed by the bounding
timeout, the promise is not rejected. -/
theorem locationResolver_never_rejects_amended_witness :
    ([GeoEvent.timeoutFires].foldl step (getUserLocation true initState).2).promise
      ≠ PromiseState.rejected "late" :=
  locationResolver_never_rejects_amended.2.2.2.2 true [GeoEvent.timeoutFires] "late"

/-- C3 counterexample: after a fresh supported call whose bounding timeout
fires, the promise is resolved with the fallback and the fallback is
cached; a late geolocation success callback reporting position (55, 13)
then OVERWRITES the cached coordinate with that position, which differs
from the fallback — refuting the claim that a late callback leaves the
cached coordinate unchanged. -/
theorem locationResolver_timeout_counterexample :
    ((step (getUserLocation true initState).2 GeoEvent.timeoutFires).promise
       = PromiseState.resolved DEFAULT_LOCATION) ∧
    ((step (getUserLocation true initState).2 GeoEvent.timeoutFires).cachedLocation
       = some DEFAULT_LOCATION) ∧
    ((step (step (getUserLocation true initState).2 GeoEvent.timeoutFires)
        (GeoEvent.geoSuccess 55 13)).cachedLocation
       = some { lat := 55, lng := 13 }) ∧
    (some { lat := 55, lng := 13 } : Option LocationData) ≠ some DEFAULT_LOCATION :=
  ⟨rfl, rfl, rfl, by
    intro h
    have hlat := congrArg LocationData.lat (Option.some.inj h)
    norm_num [DEFAULT_LOCATION] at hlat⟩

/-- C3 amended: when the bounding timeout fires on a still-pending armed
resolution, the promise resolves to the fallback coordinate and the
fallback is cached; the already-resolved promise value then never changes
under any sequence of late events, and a late error callback leaves the
cached coordinate at the fallback — but a late success callback
overwrites the cached coordinate with the reported position. -/
theorem locationResolver_timeout_amended (s : ResolverState)
    (harm : s.timeoutArmed = true) (hp : s.promise = PromiseState.pending) :
    ((step s GeoEvent.timeoutFires).promise = PromiseState.resolved DEFAULT_LOCATION) ∧
    ((step s GeoEvent.timeoutFires).cachedLocation = some DEFAULT_LOCATION) ∧
    (∀ es : List GeoEvent,
      (es.foldl step (step s GeoEvent.timeoutFires)).promise
        = PromiseState.resolved DEFAULT_LOCATION) ∧
    (∀ code : ℕ, (step (step s GeoEvent.timeoutFires) (GeoEvent.geoError code)).cachedLocation
        = some DEFAULT_LOCATION) ∧
    (∀ lat lng : ℚ, (step (step s GeoEvent.timeoutFires) (GeoEvent.geoSuccess lat lng)).cachedLocation
        = some { lat := lat, lng := lng }) := by
  have h1 : (step s GeoEvent.timeoutFires).promise = PromiseState.resolved DEFAULT_LOCATION := by
    simp [step, harm, hp, resolveP]
  exact ⟨h1, by simp [step, harm],
    fun es => foldl_preserves_resolved es _ _ h1,
    fun code => rfl, fun lat lng => rfl⟩

/-- C3 amended witness: in the concrete timed-out run, a late error
callback leaves the cached coordinate at the fallback. -/
theorem locationResolver_timeout_amended_witness :
    (step (step (getUserLocation true initState).2 GeoEvent.timeoutFires)
        (GeoEvent.geoError 3)).cachedLocation = some DEFAULT_LOCATION :=
  (locationResolver_timeout_amended (getUserLocation true initState).2 rfl rfl).2.2.2.1 3

/-- A resolver state between the first call (in a freshly loaded module
with the capability supported) and any later call: the capability was
invoked exactly once and either a location is cached or the promise cell
is still set, so a later call can never invoke the capability again. -/
def ResolverWarm (s : ResolverState) : Prop :=
  s.geoCalls = 1 ∧ (s.cachedLocation ≠ none ∨ s.locationPromise = true)

theorem warm_step (s : ResolverState) (e : GeoEvent) (h : ResolverWarm s) :
    ResolverWarm (step s e) := by
  cases e with
  | timeoutFires =>
      by_cases ha : s.timeoutArmed
      · exact ⟨by simp [step, ha, h.1], Or.inl (by simp [step, ha])⟩
      · simpa [step, ha] using h
  | geoSuccess lat lng => exact ⟨by simp [step, h.1], Or.inl (by simp [step])⟩
  | geoError code => exact ⟨by simp [step, h.1], Or.inl (by simp [step])⟩

theorem warm_foldl (es : List GeoEvent) (s : ResolverState) (h : ResolverWarm s) :
    ResolverWarm (es.foldl step s) := by
  induction es generalizing s with
  | nil => exact h
  | cons e es' ih => exact ih _ (warm_step s e h)

theorem getUserLocation_warm (supported : Bool) (s : ResolverState) (h : ResolverWarm s) :
    (getUserLocation supported s).2 = s := by
  cases hc : s.cachedLocation with
  | some v => simp [getUserLocation, hc]
  | none =>
      rcases h.2 with h2 | h2
      · exact absurd hc h2
      · simp [getUserLocation, hc, h2]

/-- In-flight state with no callback yet: nothing cached, promise cell
set, promise pending, one capability invocation. -/
def ResolverInFlight (s : ResolverState) : Prop :=
  s.cachedLocation = none ∧ s.locationPromise = true ∧
  s.promise = PromiseState.pending ∧ s.geoCalls = 1

/-- State after the resolution settled on the fallback (by the timeout or
an error callback), with no success callback having occurred. -/
def ResolverSettledDefault (s : ResolverState) : Prop :=
  s.cachedLocation = some DEFAULT_LOCATION ∧
  s.promise = PromiseState.resolved DEFAULT_LOCATION ∧ s.geoCalls = 1

theorem noSuccess_step_inv (s : ResolverState) (e : GeoEvent)
    (hs : ResolverInFlight s ∨ ResolverSettledDefault s)
    (he : ∀ lat lng : ℚ, e ≠ GeoEvent.geoSuccess lat lng) :
    ResolverInFlight (step s e) ∨ ResolverSettledDefault (step s e) := by
  cases e with
  | geoSuccess lat lng => exact absurd rfl (he lat lng)
  | timeoutFires =>
      by_cases ha : s.timeoutArmed
      · right
        rcases hs with ⟨h1, h2, h3, h4⟩ | ⟨h1, h2, h3⟩
        · exact ⟨by simp [step, ha], by simp [step, ha, h3, resolveP], by simp [step, ha, h4]⟩
        · exact ⟨by simp [step, ha], by simp [step, ha, h2, resolveP], by simp [step, ha, h3]⟩
      · simpa [step, ha] using hs
  | geoError code =>
      right
      rcases hs with ⟨h1, h2, h3, h4⟩ | ⟨h1, h2, h3⟩
      · exact ⟨rfl, by simp [step, h3, resolveP], by simp [step, h4]⟩
      · exact ⟨rfl, by simp [step, h2, resolveP], by simp [step, h3]⟩

theorem getUserLocation_pending_result (supported : Bool) (s : ResolverState)
    (h1 : s.cachedLocation = none) (h2 : s.locationPromise = true) :
    (getUserLocation supported s).1 = CallResult.sharedPromise := by
  unfold getUserLocation
  rw [h1]
  simp [h2]

theorem getUserLocation_cached_result (supported : Bool) (s : ResolverState) (v : LocationData)
    (h1 : s.cachedLocation = some v) :
    (getUserLocation supported s).1 = CallResult.cachedValue v := by
  unfold getUserLocation
  rw [h1]

theorem noSuccess_foldl_inv (es : List GeoEvent) (s : ResolverState)
    (hs : ResolverInFlight s ∨ ResolverSettledDefault s)
    (he : ∀ e ∈ es, ∀ lat lng : ℚ, e ≠ GeoEvent.geoSuccess lat lng) :
    ResolverInFlight (es.foldl step s) ∨ ResolverSettledDefault (es.foldl step s) := by
  induction es generalizing s with
  | nil => exact hs
  | cons e es' ih =>
      exact ih _ (noSuccess_step_inv s e hs (he e (List.mem_cons_self _ _)))
        (fun e2 he2 => he e2 (List.mem_cons_of_mem _ he2))

/-- C5 counterexample: with no force-refresh in between, a first call
whose bounding timeout fires yields a promise resolved with the fallback,
yet after a late success callback reporting (55, 13) a second call
returns the cached (55, 13), a different coordinate value — refuting the
claim that both calls return the same coordinate value. -/
theorem locationResolver_two_calls_counterexample :
    ((step (getUserLocation true initState).2 GeoEvent.timeoutFires).promise
       = PromiseState.resolved DEFAULT_LOCATION) ∧
    ((getUserLocation true (step (step (getUserLocation true initState).2 GeoEvent.timeoutFires)
        (GeoEvent.geoSuccess 55 13))).1
       = CallResult.cachedValue { lat := 55, lng := 13 }) ∧
    ({ lat := 55, lng := 13 } : LocationData) ≠ DEFAULT_LOCATION :=
  ⟨rfl, rfl, by
    intro h
    have hlat := congrArg LocationData.lat h
    norm_num [DEFAULT_LOCATION] at hlat⟩

/-- C5 amended: across a first call and a second call with any events in
between, the underlying geolocation capability is invoked exactly once;
and when no success callback occurs between the calls, the second call
either shares the still-pending first promise or returns the cached
fallback coordinate, which is exactly the value the first promise
resolved to — so both calls observe the same coordinate value. (A late
success callback after the bounding timeout can make the second call
return the reported position instead of the fallback the first promise
resolved to.) -/
theorem locationResolver_two_calls_amended (es : List GeoEvent) :
    ((getUserLocation true (es.foldl step (getUserLocation true initState).2)).2.geoCalls = 1) ∧
    ((∀ e ∈ es, ∀ lat lng : ℚ, e ≠ GeoEvent.geoSuccess lat lng) →
      ((getUserLocation true (es.foldl step (getUserLocation true initState).2)).1
          = CallResult.sharedPromise ∧
        (es.foldl step (getUserLocation true initState).2).promise = PromiseState.pending) ∨
      ((getUserLocation true (es.foldl step (getUserLocation true initState).2)).1
          = CallResult.cachedValue DEFAULT_LOCATION ∧
        (es.foldl step (getUserLocation true initState).2).promise
          = PromiseState.resolved DEFAULT_LOCATION)) := by
  have hwarm : ResolverWarm (es.foldl step (getUserLocation true initState).2) :=
    warm_foldl es ((getUserLocation true initState).2) ⟨rfl, Or.inr rfl⟩
  constructor
  · rw [getUserLocation_warm true _ hwarm]
    exact hwarm.1
  · intro hno
    have hinv := noSuccess_foldl_inv es ((getUserLocation true initState).2)
      (Or.inl ⟨rfl, rfl, rfl, rfl⟩) hno
    rcases hinv with ⟨h1, h2, h3, h4⟩ | ⟨h1, h2, h3⟩
    · exact Or.inl ⟨getUserLocation_pending_result true _ h1 h2, h3⟩
    · exact Or.inr ⟨getUserLocation_cached_result true _ _ h1, h2⟩

/-- C5 amended witness: with only the bounding timeout between the two
calls, the second call returns the cached fallback and the first promise
is resolved with that same fallback, after exactly one capability
invocation. -/
theorem locationResolver_two_calls_amended_witness :
    ((getUserLocation true
        ([GeoEvent.timeoutFires].foldl step (getUserLocation true initState).2)).2.geoCalls = 1) ∧
    (((getUserLocation true
          ([GeoEvent.timeoutFires].foldl step (getUserLocation true initState).2)).1
        = CallResult.sharedPromise ∧
      ([GeoEvent.timeoutFires].foldl step (getUserLocation true initState).2).promise
        = PromiseState.pending) ∨
     ((getUserLocation true
          ([GeoEvent.timeoutFires].foldl step (getUserLocation true initState).2)).1
        = CallResult.cachedValue DEFAULT_LOCATION ∧
      ([GeoEvent.timeoutFires].foldl step (getUserLocation true initState).2).promise
        = PromiseState.resolved DEFAULT_LOCATION)) :=
  ⟨(locationResolver_two_calls_amended [GeoEvent.timeoutFires]).1,
   (locationResolver_two_calls_amended [GeoEvent.timeoutFires]).2 (by
      intro e he lat lng
      rw [List.mem_singleton] at he
      subst he
      simp)⟩
